import Mathlib

/-!
Verification development for `wsl2_svg_gui_v3_clean.py`
(WSL2 Mkbitmap/Potrace GUI, version 3).

Shallow embedding conventions:
* Python floats are modelled as exact rationals (`ℚ`);
* `int(x)` (truncation toward zero) is modelled by `pyInt`;
* strings are modelled as `List Char` where character-level operations
  (regex token search, `str.replace`, `os.path.basename`) matter;
* stateful GUI behaviour (processing flag, debounce timer, pipeline
  stages) is modelled as explicit step functions on small state records,
  with external-tool outcomes (exit codes, produced files) as inputs.
-/

/-- Python `int()` applied to a float: truncation toward zero. -/
def pyInt (q : ℚ) : ℤ := if 0 ≤ q then ⌊q⌋ else -⌊-q⌋

/-- `convert_svg_to_png_wsl2`: `scale_factor = min(canvas_width / svg_width,
canvas_height / svg_height)` (the smaller scale, to fit entirely). -/
def scale_factor (svg_width svg_height canvas_width canvas_height : ℚ) : ℚ :=
  min (canvas_width / svg_width) (canvas_height / svg_height)

/-- `convert_svg_to_png_wsl2`: `final_width = int(svg_width * scale_factor)`. -/
def final_width (svg_width svg_height canvas_width canvas_height : ℚ) : ℤ :=
  pyInt (svg_width * scale_factor svg_width svg_height canvas_width canvas_height)

/-- `convert_svg_to_png_wsl2`: `final_height = int(svg_height * scale_factor)`. -/
def final_height (svg_width svg_height canvas_width canvas_height : ℚ) : ℤ :=
  pyInt (svg_height * scale_factor svg_width svg_height canvas_width canvas_height)

lemma pyInt_of_nonneg (q : ℚ) (h : 0 ≤ q) : pyInt q = ⌊q⌋ := by
  simp [pyInt, h]

lemma pyInt_intCast (n : ℤ) : pyInt (n : ℚ) = n := by
  rcases le_or_lt 0 (n : ℚ) with h | h
  · rw [pyInt_of_nonneg _ h, Int.floor_intCast]
  · simp only [pyInt, not_le.mpr h, if_false]
    rw [← Int.cast_neg, Int.floor_intCast, neg_neg]

lemma pyInt_le_of_le_intCast {q : ℚ} {n : ℤ} (h0 : 0 ≤ q) (h : q ≤ (n : ℚ)) :
    pyInt q ≤ n := by
  rw [pyInt_of_nonneg _ h0]
  exact (Int.floor_le_floor h).trans_eq (Int.floor_intCast n)

/-- C1: for any intrinsic SVG size with positive width and height and the
fixed 400×300 target box, the final preview dimensions computed by
`convert_svg_to_png_wsl2` fit inside the box, and at least one axis fills
its box dimension exactly. -/
theorem final_dims_fit_canvas (w h : ℚ) (hw : 0 < w) (hh : 0 < h) :
    final_width w h 400 300 ≤ 400 ∧ final_height w h 400 300 ≤ 300 ∧
    (final_width w h 400 300 = 400 ∨ final_height w h 400 300 = 300) := by
  have hsf : 0 ≤ scale_factor w h 400 300 :=
    le_min (div_nonneg (by norm_num) hw.le) (div_nonneg (by norm_num) hh.le)
  have hwle : w * scale_factor w h 400 300 ≤ 400 := by
    calc w * scale_factor w h 400 300
        ≤ w * (400 / w) :=
          mul_le_mul_of_nonneg_left (min_le_left (400 / w) (300 / h)) hw.le
      _ = 400 := by field_simp
  have hhle : h * scale_factor w h 400 300 ≤ 300 := by
    calc h * scale_factor w h 400 300
        ≤ h * (300 / h) :=
          mul_le_mul_of_nonneg_left (min_le_right (400 / w) (300 / h)) hh.le
      _ = 300 := by field_simp
  refine ⟨?_, ?_, ?_⟩
  · show pyInt (w * scale_factor w h 400 300) ≤ (400 : ℤ)
    exact pyInt_le_of_le_intCast (mul_nonneg hw.le hsf) (by push_cast; exact hwle)
  · show pyInt (h * scale_factor w h 400 300) ≤ (300 : ℤ)
    exact pyInt_le_of_le_intCast (mul_nonneg hh.le hsf) (by push_cast; exact hhle)
  · rcases le_total ((400 : ℚ) / w) (300 / h) with hle | hle
    · left
      show pyInt (w * scale_factor w h 400 300) = (400 : ℤ)
      rw [scale_factor, min_eq_left hle]
      have hx : w * (400 / w) = ((400 : ℤ) : ℚ) := by push_cast; field_simp
      rw [hx, pyInt_intCast]
    · right
      show pyInt (h * scale_factor w h 400 300) = (300 : ℤ)
      rw [scale_factor, min_eq_right hle]
      have hx : h * (300 / h) = ((300 : ℤ) : ℚ) := by push_cast; field_simp
      rw [hx, pyInt_intCast]

/-- Witness for C1 at the concrete intrinsic size 50×80. -/
theorem final_dims_fit_canvas_witness :
    (0 : ℚ) < 50 ∧ (0 : ℚ) < 80 ∧
    (final_width 50 80 400 300 ≤ 400 ∧ final_height 50 80 400 300 ≤ 300 ∧
      (final_width 50 80 400 300 = 400 ∨ final_height 50 80 400 300 = 300)) :=
  ⟨by norm_num, by norm_num, final_dims_fit_canvas 50 80 (by norm_num) (by norm_num)⟩

/-- `display_image_consistent`: `canvas_width = max(canvas.winfo_width(), 390)`
followed by `available_width = canvas_width - (2 * padding)` with `padding = 10`. -/
def available_width (raw : ℤ) : ℤ := max raw 390 - 2 * 10

/-- `display_image_consistent`: `canvas_height = max(canvas.winfo_height(), 290)`
followed by `available_height = canvas_height - (2 * padding)`. -/
def available_height (raw : ℤ) : ℤ := max raw 290 - 2 * 10

/-- `display_image_consistent`:
`scale_factor = min(width_ratio, height_ratio, 1.0)` with
`width_ratio = available_width / image.width` and
`height_ratio = available_height / image.height`. -/
def display_scale_factor (rawW rawH : ℤ) (imgW imgH : ℕ) : ℚ :=
  min (min ((available_width rawW : ℚ) / (imgW : ℚ))
           ((available_height rawH : ℚ) / (imgH : ℚ))) 1

/-- `display_image_consistent`: `new_width = int(image.width * scale_factor)`. -/
def new_width (rawW rawH : ℤ) (imgW imgH : ℕ) : ℤ :=
  pyInt ((imgW : ℚ) * display_scale_factor rawW rawH imgW imgH)

/-- `display_image_consistent`: `new_height = int(image.height * scale_factor)`. -/
def new_height (rawW rawH : ℤ) (imgW imgH : ℕ) : ℤ :=
  pyInt ((imgH : ℚ) * display_scale_factor rawW rawH imgW imgH)

/-- C10: `display_image_consistent` never upscales — for any image with
positive dimensions and any reported canvas size, the displayed dimensions
stay within both the original image size and the canvas's available area;
in contrast, the WSL2 preview-size computation has no such 1.0 cap (at
intrinsic size 200×100 it produces a width of 400 > 200). -/
theorem display_never_upscales (rawW rawH : ℤ) (imgW imgH : ℕ)
    (hw : 0 < imgW) (hh : 0 < imgH) :
    new_width rawW rawH imgW imgH ≤ (imgW : ℤ) ∧
    new_height rawW rawH imgW imgH ≤ (imgH : ℤ) ∧
    new_width rawW rawH imgW imgH ≤ available_width rawW ∧
    new_height rawW rawH imgW imgH ≤ available_height rawH ∧
    (200 : ℤ) < final_width 200 100 400 300 := by
  have haW : (0 : ℤ) ≤ available_width rawW := by
    have h1 : (390 : ℤ) ≤ max rawW 390 := le_max_right _ _
    unfold available_width; omega
  have haH : (0 : ℤ) ≤ available_height rawH := by
    have h1 : (290 : ℤ) ≤ max rawH 290 := le_max_right _ _
    unfold available_height; omega
  have hwQ : (0 : ℚ) < (imgW : ℚ) := by exact_mod_cast hw
  have hhQ : (0 : ℚ) < (imgH : ℚ) := by exact_mod_cast hh
  have hs0 : 0 ≤ display_scale_factor rawW rawH imgW imgH :=
    le_min (le_min (div_nonneg (by exact_mod_cast haW) hwQ.le)
      (div_nonneg (by exact_mod_cast haH) hhQ.le)) zero_le_one
  have hs1 : display_scale_factor rawW rawH imgW imgH ≤ 1 := min_le_right _ _
  have hsW : display_scale_factor rawW rawH imgW imgH ≤
      (available_width rawW : ℚ) / (imgW : ℚ) :=
    (min_le_left _ _).trans (min_le_left _ _)
  have hsH : display_scale_factor rawW rawH imgW imgH ≤
      (available_height rawH : ℚ) / (imgH : ℚ) :=
    (min_le_left _ _).trans (min_le_right _ _)
  refine ⟨?_, ?_, ?_, ?_, ?_⟩
  · apply pyInt_le_of_le_intCast (mul_nonneg hwQ.le hs0)
    push_cast
    calc (imgW : ℚ) * display_scale_factor rawW rawH imgW imgH
        ≤ (imgW : ℚ) * 1 := mul_le_mul_of_nonneg_left hs1 hwQ.le
      _ = (imgW : ℚ) := mul_one _
  · apply pyInt_le_of_le_intCast (mul_nonneg hhQ.le hs0)
    push_cast
    calc (imgH : ℚ) * display_scale_factor rawW rawH imgW imgH
        ≤ (imgH : ℚ) * 1 := mul_le_mul_of_nonneg_left hs1 hhQ.le
      _ = (imgH : ℚ) := mul_one _
  · apply pyInt_le_of_le_intCast (mul_nonneg hwQ.le hs0)
    calc (imgW : ℚ) * display_scale_factor rawW rawH imgW imgH
        ≤ (imgW : ℚ) * ((available_width rawW : ℚ) / (imgW : ℚ)) :=
          mul_le_mul_of_nonneg_left hsW hwQ.le
      _ = (available_width rawW : ℚ) := by field_simp
  · apply pyInt_le_of_le_intCast (mul_nonneg hhQ.le hs0)
    calc (imgH : ℚ) * display_scale_factor rawW rawH imgW imgH
        ≤ (imgH : ℚ) * ((available_height rawH : ℚ) / (imgH : ℚ)) :=
          mul_le_mul_of_nonneg_left hsH hhQ.le
      _ = (available_height rawH : ℚ) := by field_simp
  · simp [final_width, scale_factor, pyInt]
    norm_num

/-- Witness for C10 at image size 600×500 with canvas 400×300. -/
theorem display_never_upscales_witness :
    0 < 600 ∧ 0 < 500 ∧
    (new_width 400 300 600 500 ≤ (600 : ℤ) ∧
     new_height 400 300 600 500 ≤ (500 : ℤ) ∧
     new_width 400 300 600 500 ≤ available_width 400 ∧
     new_height 400 300 600 500 ≤ available_height 300 ∧
     (200 : ℤ) < final_width 200 100 400 300) :=
  ⟨by norm_num, by norm_num,
    display_never_upscales 400 300 600 500 (by norm_num) (by norm_num)⟩

/-- C9: scenario from the spec — intrinsic SVG size 200×100 against the
400×300 target box gives scale factor `min(2, 3) = 2` and final dimensions
exactly 400×200. -/
theorem scenario_200x100_box_400x300 :
    scale_factor 200 100 400 300 = 2 ∧
    final_width 200 100 400 300 = 400 ∧ final_height 200 100 400 300 = 200 := by
  refine ⟨by norm_num [scale_factor], ?_, ?_⟩ <;>
    simp [final_width, final_height, scale_factor, pyInt] <;> norm_num

/-! ## SVG intrinsic-dimension extraction (`convert_svg_to_png_wsl2`, lines 339–363) -/

/-- The character class of the `r'[\d.]+'` regex. -/
def isNumChar (c : Char) : Bool := c.isDigit || c == '.'

/-- `re.search(r'[\d.]+', s)`: the first maximal run of digits and dots,
`None` when the string has no digit and no dot. -/
def firstNumericToken (s : List Char) : Option (List Char) :=
  let t := (s.dropWhile (fun c => !isNumChar c)).takeWhile isNumChar
  if t.isEmpty then none else some t

/-- Decimal digits (most significant first) to a natural number. -/
def digitsToNat (ds : List Char) : ℕ :=
  ds.foldl (fun acc c => 10 * acc + (c.toNat - '0'.toNat)) 0

/-- Python `float()` on an unsigned literal `digits [ '.' digits ]`:
fails (raising `ValueError`, modelled as `none`) on inputs such as `"."`
or `"1.2.3"`. Exponent, `inf`/`nan`, underscore and whitespace forms of
`float()` are outside this model; no input built by this GUI uses them. -/
def parseMantissa (cs : List Char) : Option ℚ :=
  let intPart := cs.takeWhile Char.isDigit
  let rest := cs.dropWhile Char.isDigit
  match rest with
  | [] => if intPart.isEmpty then none else some (digitsToNat intPart : ℚ)
  | '.' :: frac =>
    if frac.all Char.isDigit && !(intPart.isEmpty && frac.isEmpty) then
      some ((digitsToNat intPart : ℚ) + (digitsToNat frac : ℚ) / 10 ^ frac.length)
    else none
  | _ => none

/-- Python `float()` with an optional leading sign. -/
def pyFloat (cs : List Char) : Option ℚ :=
  match cs with
  | '-' :: rest => (parseMantissa rest).map (fun q => -q)
  | '+' :: rest => parseMantissa rest
  | _ => parseMantissa cs

/-- Accumulator for `pySplit` (current word, reversed). -/
def pySplitAux : List Char → List Char → List (List Char)
  | [], acc => if acc.isEmpty then [] else [acc.reverse]
  | c :: cs, acc =>
    if c.isWhitespace then
      if acc.isEmpty then pySplitAux cs [] else acc.reverse :: pySplitAux cs []
    else pySplitAux cs (c :: acc)

/-- Python `str.split()` with no argument: split on whitespace runs and
drop empty pieces (as used on the `viewBox` attribute). -/
def pySplit (cs : List Char) : List (List Char) := pySplitAux cs []

/-- An SVG root element, abstracted to the three attributes the code
reads (`None` = attribute absent). -/
structure SvgDoc where
  width : Option (List Char)
  height : Option (List Char)
  viewBox : Option (List Char)
deriving DecidableEq, Repr

/-- The `viewBox` arm shared by the extraction paths: take the third and
fourth whitespace-separated fields when at least four exist; any missing
field or failing `float()` gives the 100×100 default (the enclosing
`except` in the source). -/
def viewbox_fallback (vb : List Char) : ℚ × ℚ :=
  let parts := pySplit vb
  if 4 ≤ parts.length then
    match pyFloat (parts.getD 2 []), pyFloat (parts.getD 3 []) with
    | some w, some h => (w, h)
    | _, _ => (100, 100)
  else (100, 100)

/-- The intrinsic-dimension extraction of `convert_svg_to_png_wsl2`:
`width_str = root.get('width', '100')`, `height_str = root.get('height',
'100')`, regex token search on both, `float()` on the matches; only when
a regex search fails does control reach the `viewBox` fallback (itself
defaulted to `'0 0 100 100'`); a raising `float()` lands in the `except`
that sets 100×100. -/
def extract_dimensions (d : SvgDoc) : ℚ × ℚ :=
  let width_str := d.width.getD "100".toList
  let height_str := d.height.getD "100".toList
  match firstNumericToken width_str, firstNumericToken height_str with
  | some wt, some ht =>
    match pyFloat wt, pyFloat ht with
    | some w, some h => (w, h)
    | _, _ => (100, 100)
  | _, _ => viewbox_fallback (d.viewBox.getD "0 0 100 100".toList)

/-- Modelled from the spec sentence behind C2: if the `width` and
`height` attributes are present, take the first numeric token of each;
if the attributes are absent, fall back to the third and fourth
space-separated numbers of `viewBox`; if `viewBox` is also absent,
use 100×100. -/
def spec_extract_dimensions (d : SvgDoc) : ℚ × ℚ :=
  match d.width, d.height with
  | some ws, some hs =>
    match (firstNumericToken ws).bind pyFloat, (firstNumericToken hs).bind pyFloat with
    | some w, some h => (w, h)
    | _, _ => (100, 100)
  | _, _ =>
    match d.viewBox with
    | some vb => viewbox_fallback vb
    | none => (100, 100)

/-- The amended C2: absent attributes default to the string `'100'`,
whose token search always succeeds, so the attribute branch wins whenever
both (possibly defaulted) attribute strings contain a numeric token; the
`viewBox` fallback is reached only when a present attribute value has no
digit and no dot. -/
def amended_extract_dimensions (d : SvgDoc) : ℚ × ℚ :=
  let ws := d.width.getD "100".toList
  let hs := d.height.getD "100".toList
  if (firstNumericToken ws).isSome && (firstNumericToken hs).isSome then
    match (firstNumericToken ws).bind pyFloat, (firstNumericToken hs).bind pyFloat with
    | some w, some h => (w, h)
    | _, _ => (100, 100)
  else viewbox_fallback (d.viewBox.getD "0 0 100 100".toList)

/-- C2 counterexample: on a document with no `width`/`height` attributes
and `viewBox="0 0 50 25"`, the claimed extraction order yields 50×25 via
the viewBox fallback, but the code's `root.get('width', '100')` default
makes the attribute branch succeed with 100×100 — the viewBox is never
consulted. -/
theorem extract_order_counterexample :
    extract_dimensions ⟨none, none, some "0 0 50 25".toList⟩ = (100, 100) ∧
    spec_extract_dimensions ⟨none, none, some "0 0 50 25".toList⟩ = (50, 25) ∧
    extract_dimensions ⟨none, none, some "0 0 50 25".toList⟩ ≠
      spec_extract_dimensions ⟨none, none, some "0 0 50 25".toList⟩ := by
  refine ⟨?_, ?_, ?_⟩ <;> decide

/-- C2 amended: for every document, the code's extraction equals the
amended order — attribute tokens (with absent attributes defaulting to
`'100'`) first, the `viewBox` third/fourth fields only when a token
search fails, 100×100 when `viewBox` is absent or malformed. -/
theorem extract_matches_amended_order (d : SvgDoc) :
    extract_dimensions d = amended_extract_dimensions d := by
  unfold extract_dimensions amended_extract_dimensions
  dsimp only
  split
  · rename_i wt ht hw hh
    simp at hw hh
    simp [hw, hh]
  · rename_i o1 o2 hnot
    simp at hnot
    cases hw : firstNumericToken (d.width.getD "100".toList) with
    | none => simp [hw]
    | some wt =>
      cases hh : firstNumericToken (d.height.getD "100".toList) with
      | none => simp [hw, hh]
      | some ht =>
        simp at hw hh
        exact absurd hh (hnot wt ht hw)

/-- Witness for the amended C2 at a concrete document (absent attributes,
viewBox present): both sides evaluate to 100×100. -/
theorem extract_matches_amended_order_witness :
    extract_dimensions ⟨none, none, some "0 0 50 25".toList⟩ =
      amended_extract_dimensions ⟨none, none, some "0 0 50 25".toList⟩ :=
  extract_matches_amended_order ⟨none, none, some "0 0 50 25".toList⟩

/-! ## Path bridging to WSL2 (`convert_svg_to_png_wsl2`, lines 377–392) -/

/-- Boolean prefix test on character lists. -/
def startsWithL : List Char → List Char → Bool
  | [], _ => true
  | _ :: _, [] => false
  | p :: ps, c :: cs => p == c && startsWithL ps cs

/-- Python's `pat in s` substring test. -/
def containsSub (pat : List Char) : List Char → Bool
  | [] => startsWithL pat []
  | c :: cs => startsWithL pat (c :: cs) || containsSub pat cs

/-- Python `s.replace(c, rep)` for a one-character pattern. -/
def replaceChar (c : Char) (rep : List Char) : List Char → List Char
  | [] => []
  | d :: ds => if c == d then rep ++ replaceChar c rep ds else d :: replaceChar c rep ds

/-- Python `s.replace(p1 + p2, rep)` for a two-character pattern:
left-to-right, non-overlapping. -/
def replace2 (p1 p2 : Char) (rep : List Char) : List Char → List Char
  | [] => []
  | [d] => [d]
  | d :: e :: ds =>
    if p1 == d && p2 == e then rep ++ replace2 p1 p2 rep ds
    else d :: replace2 p1 p2 rep (e :: ds)

/-- `ntpath.splitdrive` for drive-letter paths (UNC prefixes do not occur
in this GUI's paths): peel a leading `X:`. -/
def splitDrive (p : List Char) : List Char × List Char :=
  match p with
  | a :: ':' :: rest => ([a, ':'], rest)
  | _ => ([], p)

/-- `os.path.basename` on Windows: the component after the last `\` or
`/` of the post-drive part. -/
def pyBasename (p : List Char) : List Char :=
  ((splitDrive p).2.reverse.takeWhile (fun c => !(c == '\\' || c == '/'))).reverse

/-- `self.project_root`. -/
def project_root : List Char :=
  "G:\\Claude Wargame Icon Generator\\WWII Silhouette Icon System".toList

/-- `'Temp' in svg_path or 'temp' in svg_path or 'tmp' in svg_path`. -/
def isTempPath (p : List Char) : Bool :=
  containsSub "Temp".toList p || containsSub "temp".toList p || containsSub "tmp".toList p

/-- `wsl_accessible_svg = (project_root / "temp") / ("temp_" +
os.path.basename(svg_path))` rendered as a Windows path string. -/
def temp_copy_dest (p : List Char) : List Char :=
  project_root ++ "\\temp\\temp_".toList ++ pyBasename p

/-- `.replace('\\', '/')`. -/
def winToSlash (p : List Char) : List Char := replaceChar '\\' "/".toList p

/-- `.replace('\\', '/').replace('G:', '/mnt/g')` — the temp-branch
conversion. -/
def to_wsl_g (p : List Char) : List Char :=
  replace2 'G' ':' "/mnt/g".toList (winToSlash p)

/-- `.replace('\\', '/').replace('C:', '/mnt/c').replace('G:', '/mnt/g')`
— the regular-path conversion. -/
def to_wsl_cg (p : List Char) : List Char :=
  replace2 'G' ':' "/mnt/g".toList (replace2 'C' ':' "/mnt/c".toList (winToSlash p))

/-- Observable effects of bridging the input SVG path. -/
structure BridgeObs where
  madeTempDir : Bool
  copied : Option (List Char × List Char)
  wsl_svg_path : List Char
deriving DecidableEq, Repr

/-- The input-path bridging of `convert_svg_to_png_wsl2`: temp-looking
paths are copied (`shutil.copy2`) into the project temp directory
(created with `mkdir(exist_ok=True)`) and the WSL path is formed from the
copy; other paths are converted by string substitution alone. -/
def bridge_svg_path (svg_path : List Char) : BridgeObs :=
  if isTempPath svg_path then
    { madeTempDir := true
      copied := some (svg_path, temp_copy_dest svg_path)
      wsl_svg_path := to_wsl_g (temp_copy_dest svg_path) }
  else
    { madeTempDir := false
      copied := none
      wsl_svg_path := to_wsl_cg svg_path }

lemma startsWithL_append (a b : List Char) : startsWithL a (a ++ b) = true := by
  induction a with
  | nil => rfl
  | cons c cs ih => simp [startsWithL, ih]

lemma replaceChar_append (c : Char) (rep a b : List Char) :
    replaceChar c rep (a ++ b) = replaceChar c rep a ++ replaceChar c rep b := by
  induction a with
  | nil => rfl
  | cons d ds ih =>
    by_cases h : (c == d) = true
    · simp [replaceChar, h, ih]
    · simp [replaceChar, h, ih]

lemma replace2_cons_match (p1 p2 : Char) (rep l : List Char) :
    replace2 p1 p2 rep (p1 :: p2 :: l) = rep ++ replace2 p1 p2 rep l := by
  simp [replace2]

lemma replace2_append (p1 p2 : Char) (rep a b : List Char)
    (hin : containsSub [p1, p2] a = false)
    (hlast : a.getLast? ≠ some p1) :
    replace2 p1 p2 rep (a ++ b) = a ++ replace2 p1 p2 rep b := by
  induction a with
  | nil => rfl
  | cons d ds ih =>
    have hsw : startsWithL [p1, p2] (d :: ds) = false ∧ containsSub [p1, p2] ds = false := by
      have := hin
      simp only [containsSub, Bool.or_eq_false_iff] at this
      exact this
    cases ds with
    | nil =>
      have hd : (p1 == d) = false := by
        refine beq_eq_false_iff_ne.mpr fun he => hlast ?_
        simp [List.getLast?, he]
      cases b with
      | nil => simp [replace2]
      | cons e bs => simp [replace2, hd]
    | cons e ds' =>
      have hcond : (p1 == d && p2 == e) = false := by
        have h1 := hsw.1
        simp only [startsWithL, Bool.and_eq_false_iff] at h1 ⊢
        rcases h1 with h | h | h
        · exact Or.inl h
        · exact Or.inr h
        · exact absurd h (by simp)
      have hlast' : (e :: ds').getLast? ≠ some p1 := by
        simpa [List.getLast?_cons_cons] using hlast
      have hih := ih hsw.2 hlast'
      simp only [List.cons_append] at hih ⊢
      simp [replace2, hcond, hih]

/-- The temp-branch WSL path in closed form: the `/mnt/g`-rooted project
temp directory followed by the converted `temp_<basename>` file name. -/
lemma to_wsl_g_temp_copy (p : List Char) :
    to_wsl_g (temp_copy_dest p) =
      ("/mnt/g/Claude Wargame Icon Generator/WWII Silhouette Icon System" ++
        "/temp/temp_").toList
        ++ replace2 'G' ':' "/mnt/g".toList (winToSlash (pyBasename p)) := by
  have h1 : winToSlash (temp_copy_dest p) =
      ("G:/Claude Wargame Icon Generator/WWII Silhouette Icon System" ++
        "/temp/temp_").toList ++ winToSlash (pyBasename p) := by
    have hc : replaceChar '\\' "/".toList (project_root ++ "\\temp\\temp_".toList) =
        ("G:/Claude Wargame Icon Generator/WWII Silhouette Icon System" ++
          "/temp/temp_").toList := by decide
    rw [temp_copy_dest, winToSlash, replaceChar_append, hc]
    rfl
  rw [to_wsl_g, h1]
  have h2 : (("G:/Claude Wargame Icon Generator/WWII Silhouette Icon System" ++
      "/temp/temp_").toList : List Char) =
      'G' :: ':' ::
        ("/Claude Wargame Icon Generator/WWII Silhouette Icon System" ++
          "/temp/temp_").toList := by decide
  have h3 : ("/mnt/g".toList : List Char) ++
      ("/Claude Wargame Icon Generator/WWII Silhouette Icon System" ++
        "/temp/temp_").toList =
      ("/mnt/g/Claude Wargame Icon Generator/WWII Silhouette Icon System" ++
        "/temp/temp_").toList := by decide
  rw [h2, List.cons_append, List.cons_append, replace2_cons_match,
    replace2_append _ _ _ _ _ (by decide) (by decide), ← List.append_assoc, h3]

/-- C7: an input SVG path containing `Temp`/`temp`/`tmp` is first copied
into the shared project temp directory (created if needed) and the
bridged path is the `/`-separated, `G:`-to-`/mnt/g` translated path of
that copy inside the project temp directory — not the original temp
location; a path with no such substring is bridged by string substitution
only, with no copy. -/
theorem temp_path_bridging (svg_path : List Char) :
    (isTempPath svg_path = true →
      (bridge_svg_path svg_path).madeTempDir = true ∧
      (bridge_svg_path svg_path).copied = some (svg_path, temp_copy_dest svg_path) ∧
      startsWithL (project_root ++ "\\temp\\".toList) (temp_copy_dest svg_path) = true ∧
      (bridge_svg_path svg_path).wsl_svg_path =
        ("/mnt/g/Claude Wargame Icon Generator/WWII Silhouette Icon System" ++
          "/temp/temp_").toList
          ++ replace2 'G' ':' "/mnt/g".toList (winToSlash (pyBasename svg_path))) ∧
    (isTempPath svg_path = false →
      (bridge_svg_path svg_path).madeTempDir = false ∧
      (bridge_svg_path svg_path).copied = none ∧
      (bridge_svg_path svg_path).wsl_svg_path = to_wsl_cg svg_path) := by
  constructor
  · intro ht
    refine ⟨by simp [bridge_svg_path, ht], by simp [bridge_svg_path, ht], ?_, ?_⟩
    · have hsplit : temp_copy_dest svg_path =
          (project_root ++ "\\temp\\".toList) ++
            ("temp_".toList ++ pyBasename svg_path) := by
        rw [temp_copy_dest]
        have hs : ("\\temp\\temp_".toList : List Char) =
            "\\temp\\".toList ++ "temp_".toList := by decide
        rw [hs]
        simp [List.append_assoc]
      rw [hsplit]
      exact startsWithL_append _ _
    · simp [bridge_svg_path, ht, to_wsl_g_temp_copy]
  · intro hf
    refine ⟨?_, ?_, ?_⟩ <;> simp [bridge_svg_path, hf]

/-- Witness for C7: a Windows user-temp SVG path (copied) and a
blueprint path under the project root (substitution only). -/
theorem temp_path_bridging_witness :
    ((bridge_svg_path "C:\\Users\\AB\\AppData\\Local\\Temp\\tmp9_preview.svg".toList).madeTempDir = true ∧
      (bridge_svg_path "C:\\Users\\AB\\AppData\\Local\\Temp\\tmp9_preview.svg".toList).copied =
        some ("C:\\Users\\AB\\AppData\\Local\\Temp\\tmp9_preview.svg".toList,
          temp_copy_dest "C:\\Users\\AB\\AppData\\Local\\Temp\\tmp9_preview.svg".toList) ∧
      startsWithL (project_root ++ "\\temp\\".toList)
        (temp_copy_dest "C:\\Users\\AB\\AppData\\Local\\Temp\\tmp9_preview.svg".toList) = true ∧
      (bridge_svg_path "C:\\Users\\AB\\AppData\\Local\\Temp\\tmp9_preview.svg".toList).wsl_svg_path =
        ("/mnt/g/Claude Wargame Icon Generator/WWII Silhouette Icon System" ++
          "/temp/temp_").toList
          ++ replace2 'G' ':' "/mnt/g".toList
            (winToSlash (pyBasename "C:\\Users\\AB\\AppData\\Local\\Temp\\tmp9_preview.svg".toList))) ∧
    ((bridge_svg_path "G:\\Claude Wargame Icon Generator\\WWII Silhouette Icon System\\wwii_icons\\blueprints\\tank.png".toList).madeTempDir = false ∧
      (bridge_svg_path "G:\\Claude Wargame Icon Generator\\WWII Silhouette Icon System\\wwii_icons\\blueprints\\tank.png".toList).copied = none ∧
      (bridge_svg_path "G:\\Claude Wargame Icon Generator\\WWII Silhouette Icon System\\wwii_icons\\blueprints\\tank.png".toList).wsl_svg_path =
        to_wsl_cg "G:\\Claude Wargame Icon Generator\\WWII Silhouette Icon System\\wwii_icons\\blueprints\\tank.png".toList) :=
  ⟨(temp_path_bridging
      "C:\\Users\\AB\\AppData\\Local\\Temp\\tmp9_preview.svg".toList).1 (by decide),
    (temp_path_bridging
      "G:\\Claude Wargame Icon Generator\\WWII Silhouette Icon System\\wwii_icons\\blueprints\\tank.png".toList).2 (by decide)⟩

/-! ## Pipeline run state (`self.processing`, `start_processing`, `process_pipeline`) -/

/-- Abstract decoded raster (PIL image contents are irrelevant here). -/
abbrev Image := Nat

/-- Cross-thread state: the `self.processing` flag, plus a count of
spawned-but-unfinished background pipeline runs (ghost variable used to
express "at most one run active"). -/
structure PipeState where
  processing : Bool
  active : Nat
deriving DecidableEq, Repr

/-- Events on the shared state: `trigger` models a call to
`start_processing` from the UI thread; `finish b` models the worker
thread completing `process_pipeline` (successfully or not), whose
`finally` block clears the flag. -/
inductive PipeEvent where
  | trigger : PipeEvent
  | finish : Bool → PipeEvent
deriving DecidableEq, Repr

/-- `start_processing`: `if self.processing: return` (drop the trigger),
else set `self.processing = True` and spawn the worker thread.
`process_pipeline`'s `finally`: `self.processing = False` on every path. -/
def pipeStep (s : PipeState) : PipeEvent → PipeState
  | .trigger => if s.processing then s else { processing := true, active := s.active + 1 }
  | .finish _ => { processing := false, active := s.active - 1 }

/-- Initial state: `self.processing = False`, no worker running. -/
def pipeInit : PipeState := { processing := false, active := 0 }

/-- State after a sequence of trigger/finish events from startup. -/
def runEvents (evs : List PipeEvent) : PipeState := evs.foldl pipeStep pipeInit

/-- The single-run invariant: never more than one active run, and the
`processing` flag tracks exactly whether a run is active. -/
def PipeInv (s : PipeState) : Prop := s.active ≤ 1 ∧ (s.processing = true ↔ s.active = 1)

lemma pipeInv_step (s : PipeState) (e : PipeEvent) (h : PipeInv s) :
    PipeInv (pipeStep s e) := by
  obtain ⟨h1, h2⟩ := h
  cases e with
  | trigger =>
    by_cases hp : s.processing = true
    · simpa [PipeInv, pipeStep, hp] using ⟨h1, h2.mp hp⟩
    · have hp' : s.processing = false := by
        cases hb : s.processing
        · rfl
        · exact absurd hb hp
      have ha : s.active = 0 := by
        have hne : s.active ≠ 1 := fun hx => hp (h2.mpr hx)
        omega
      simp [PipeInv, pipeStep, hp', ha]
  | finish b =>
    have ha : s.active - 1 = 0 := by omega
    simp [PipeInv, pipeStep, ha]

lemma pipeInv_foldl (s : PipeState) (evs : List PipeEvent) (h : PipeInv s) :
    PipeInv (evs.foldl pipeStep s) := by
  induction evs generalizing s with
  | nil => exact h
  | cons e rest ih => exact ih _ (pipeInv_step s e h)

/-- C3: at most one background pipeline run is ever active — along any
event sequence from startup the number of active runs never exceeds one;
a trigger arriving while `processing` is set is dropped (the state is
unchanged, nothing is queued); and completion of `process_pipeline` —
success or failure alike — always clears the `processing` flag. -/
theorem at_most_one_pipeline_run (evs : List PipeEvent) :
    (runEvents evs).active ≤ 1 ∧
    (∀ s : PipeState, s.processing = true → pipeStep s .trigger = s) ∧
    (∀ (s : PipeState) (b : Bool), (pipeStep s (.finish b)).processing = false) := by
  refine ⟨(pipeInv_foldl pipeInit evs ⟨by simp [pipeInit], by simp [pipeInit]⟩).1, ?_, ?_⟩
  · intro s hs; simp [pipeStep, hs]
  · intro s b; simp [pipeStep]

/-- Witness for C3 on a concrete event trace and concrete busy state. -/
theorem at_most_one_pipeline_run_witness :
    (runEvents [.trigger, .trigger, .finish true]).active ≤ 1 ∧
    pipeStep ⟨true, 1⟩ .trigger = ⟨true, 1⟩ ∧
    (pipeStep ⟨true, 1⟩ (.finish false)).processing = false :=
  ⟨(at_most_one_pipeline_run [.trigger, .trigger, .finish true]).1,
    (at_most_one_pipeline_run []).2.1 ⟨true, 1⟩ rfl,
    (at_most_one_pipeline_run []).2.2 ⟨true, 1⟩ false⟩

/-! ## External tool invocations (`run_mkbitmap`, `run_potrace`) and the
four-stage `process_pipeline` body -/

/-- Outcome of one external subprocess invocation, as seen by the caller:
whether an exception was raised around it (e.g. `TimeoutExpired`), the
exit code, and whether the declared output file exists afterwards. -/
structure ToolRun where
  raisedError : Bool
  exitCode : Int
  outputExists : Bool
deriving DecidableEq, Repr

/-- `run_mkbitmap`: returns the decoded output image only when no
exception was raised, `result.returncode == 0` and
`os.path.exists(output_path)`; returns `None` otherwise (including when
`self.current_image` is `None`). -/
def run_mkbitmap (current_image : Option Image) (run : ToolRun)
    (outputImage : Image) : Option Image :=
  match current_image with
  | none => none
  | some _ =>
    if run.raisedError = true then none
    else if run.exitCode = 0 ∧ run.outputExists = true then some outputImage
    else none

/-- Python truthiness of an optional string (`if svg_path and svg_content:`
— `None` and the empty string are falsy). -/
def truthy (o : Option String) : Bool :=
  match o with
  | none => false
  | some s => !s.isEmpty

/-- Observable effects of one `process_pipeline` run. -/
structure PipelineObs where
  stage2Invoked : Bool
  statusText : String
  pipelineMsg : String
  processingAfter : Bool
deriving DecidableEq, Repr

/-- `process_pipeline` body: stage 1 result drives whether stage 2
(`run_potrace`) runs at all; each branch posts its status strings; the
`finally` block clears `self.processing` on every path. -/
def process_pipeline (mkbitmap_result : Option Image)
    (run_potrace_of : Image → Option String × Option String) : PipelineObs :=
  match mkbitmap_result with
  | some bm =>
    let r := run_potrace_of bm
    if truthy r.1 = true ∧ truthy r.2 = true then
      { stage2Invoked := true
        statusText := "✅ All Stages Complete! Live preview active across all 4 panels"
        pipelineMsg := "✅ V3 Full pipeline complete! All 4 panels populated automatically."
        processingAfter := false }
    else
      { stage2Invoked := true
        statusText := "❌ Potrace failed"
        pipelineMsg := "❌ Stage 2: Potrace tracing failed"
        processingAfter := false }
  | none =>
    { stage2Invoked := false
      statusText := "❌ Mkbitmap failed"
      pipelineMsg := "❌ Stage 1: Mkbitmap preprocessing failed"
      processingAfter := false }

/-- C4: whenever `run_mkbitmap` fails (returns `None` — non-zero exit,
exception/timeout, or missing output file), `process_pipeline` reports the
Stage 1 failure with status text "❌ Mkbitmap failed", never invokes
`run_potrace`, and leaves `processing` false. -/
theorem mkbitmap_failure_short_circuits (current_image : Option Image)
    (run : ToolRun) (outputImage : Image)
    (run_potrace_of : Image → Option String × Option String)
    (hfail : run_mkbitmap current_image run outputImage = none) :
    (process_pipeline (run_mkbitmap current_image run outputImage)
        run_potrace_of).stage2Invoked = false ∧
    (process_pipeline (run_mkbitmap current_image run outputImage)
        run_potrace_of).statusText = "❌ Mkbitmap failed" ∧
    (process_pipeline (run_mkbitmap current_image run outputImage)
        run_potrace_of).pipelineMsg = "❌ Stage 1: Mkbitmap preprocessing failed" ∧
    (process_pipeline (run_mkbitmap current_image run outputImage)
        run_potrace_of).processingAfter = false := by
  rw [hfail]
  exact ⟨rfl, rfl, rfl, rfl⟩

/-- Witness for C4: mkbitmap exits with code 1. -/
theorem mkbitmap_failure_short_circuits_witness :
    (process_pipeline (run_mkbitmap (some 0) ⟨false, 1, true⟩ 0)
        (fun _ => (none, none))).stage2Invoked = false ∧
    (process_pipeline (run_mkbitmap (some 0) ⟨false, 1, true⟩ 0)
        (fun _ => (none, none))).statusText = "❌ Mkbitmap failed" ∧
    (process_pipeline (run_mkbitmap (some 0) ⟨false, 1, true⟩ 0)
        (fun _ => (none, none))).pipelineMsg =
      "❌ Stage 1: Mkbitmap preprocessing failed" ∧
    (process_pipeline (run_mkbitmap (some 0) ⟨false, 1, true⟩ 0)
        (fun _ => (none, none))).processingAfter = false :=
  mkbitmap_failure_short_circuits (some 0) ⟨false, 1, true⟩ 0
    (fun _ => (none, none)) (by decide)

/-- Outcome environment for one `run_potrace` invocation. -/
structure PotraceEnv where
  raisedError : Bool
  exitCode : Int
  outputExists : Bool
  outputContent : String
deriving DecidableEq, Repr

/-- Observable effects of one `run_potrace` call. -/
structure PotraceObs where
  result : Option String × Option String
  tempCopyContent : Option String
  inputDeleted : Bool
  outputDeleted : Bool
deriving DecidableEq, Repr

/-- `run_potrace`: with an input image present, on zero exit and existing
output file it reads the SVG text, writes it to a fresh
`NamedTemporaryFile` and returns `(temp_svg.name, svg_content)`;
any exception, non-zero exit or missing output yields `(None, None)`;
the `finally` block unlinks the temp input and the original output file on
every one of those paths. (`input_image is None` returns before any temp
file is created.) -/
def run_potrace (input_image : Option Image)
    (_input_path _output_path fresh_temp_name : String)
    (env : PotraceEnv) : PotraceObs :=
  match input_image with
  | none => ⟨(none, none), none, false, false⟩
  | some _ =>
    if env.raisedError = true then ⟨(none, none), none, true, true⟩
    else if env.exitCode = 0 ∧ env.outputExists = true then
      ⟨(some fresh_temp_name, some env.outputContent),
        some env.outputContent, true, true⟩
    else ⟨(none, none), none, true, true⟩

/-- C5: for every input bitmap, `run_potrace` either succeeds (no
exception, exit 0, output file present), returning the SVG text together
with a fresh separately-owned temp copy holding that same text — a path
distinct from both the deleted input and output files — or returns
`(None, None)`; in both cases the temp input file and the original output
file are deleted. -/
theorem run_potrace_contract (img : Image)
    (input_path output_path fresh_temp_name : String) (env : PotraceEnv)
    (hfresh : fresh_temp_name ≠ input_path ∧ fresh_temp_name ≠ output_path) :
    ((env.raisedError = false ∧ env.exitCode = 0 ∧ env.outputExists = true) →
      (run_potrace (some img) input_path output_path fresh_temp_name env).result =
        (some fresh_temp_name, some env.outputContent) ∧
      (run_potrace (some img) input_path output_path fresh_temp_name
        env).tempCopyContent = some env.outputContent ∧
      fresh_temp_name ≠ input_path ∧ fresh_temp_name ≠ output_path) ∧
    (¬(env.raisedError = false ∧ env.exitCode = 0 ∧ env.outputExists = true) →
      (run_potrace (some img) input_path output_path fresh_temp_name env).result =
        (none, none)) ∧
    (run_potrace (some img) input_path output_path fresh_temp_name
      env).inputDeleted = true ∧
    (run_potrace (some img) input_path output_path fresh_temp_name
      env).outputDeleted = true := by
  obtain ⟨hf1, hf2⟩ := hfresh
  by_cases he : env.raisedError = true
  · refine ⟨fun hc => absurd hc.1 (by simp [he]), fun _ => ?_, ?_, ?_⟩ <;>
      simp [run_potrace, he]
  · have he' : env.raisedError = false := by
      cases h : env.raisedError
      · rfl
      · exact absurd h he
    by_cases hok : env.exitCode = 0 ∧ env.outputExists = true
    · exact ⟨fun _ => ⟨by simp [run_potrace, he, hok], by simp [run_potrace, he, hok],
        hf1, hf2⟩, fun hc => absurd ⟨he', hok.1, hok.2⟩ hc,
        by simp [run_potrace, he, hok], by simp [run_potrace, he, hok]⟩
    · exact ⟨fun hc => absurd ⟨hc.2.1, hc.2.2⟩ hok, fun _ => by simp [run_potrace, he, hok],
        by simp [run_potrace, he, hok], by simp [run_potrace, he, hok]⟩

/-- Witness for C5 on a concrete successful environment. -/
theorem run_potrace_contract_witness :
    (((⟨false, 0, true, "svg"⟩ : PotraceEnv).raisedError = false ∧
        (⟨false, 0, true, "svg"⟩ : PotraceEnv).exitCode = 0 ∧
        (⟨false, 0, true, "svg"⟩ : PotraceEnv).outputExists = true) →
      (run_potrace (some 0) "in.pbm" "out.svg" "copy.svg"
          ⟨false, 0, true, "svg"⟩).result = (some "copy.svg", some "svg") ∧
      (run_potrace (some 0) "in.pbm" "out.svg" "copy.svg"
          ⟨false, 0, true, "svg"⟩).tempCopyContent = some "svg" ∧
      "copy.svg" ≠ "in.pbm" ∧ "copy.svg" ≠ "out.svg") ∧
    (¬((⟨false, 0, true, "svg"⟩ : PotraceEnv).raisedError = false ∧
        (⟨false, 0, true, "svg"⟩ : PotraceEnv).exitCode = 0 ∧
        (⟨false, 0, true, "svg"⟩ : PotraceEnv).outputExists = true) →
      (run_potrace (some 0) "in.pbm" "out.svg" "copy.svg"
          ⟨false, 0, true, "svg"⟩).result = (none, none)) ∧
    (run_potrace (some 0) "in.pbm" "out.svg" "copy.svg"
        ⟨false, 0, true, "svg"⟩).inputDeleted = true ∧
    (run_potrace (some 0) "in.pbm" "out.svg" "copy.svg"
        ⟨false, 0, true, "svg"⟩).outputDeleted = true :=
  run_potrace_contract 0 "in.pbm" "out.svg" "copy.svg" ⟨false, 0, true, "svg"⟩
    ⟨by decide, by decide⟩

/-! ## Debounced parameter changes (`on_parameter_change`) -/

/-- Debounce bookkeeping: the pending `root.after` job (if any), a fresh
job-id counter, how many times `start_processing` has been invoked by a
fired timer, and which scheduled jobs were cancelled. -/
structure DebounceState where
  pending : Option Nat
  nextId : Nat
  started : Nat
  cancelled : List Nat
deriving DecidableEq, Repr

/-- `on_parameter_change`: when live preview is on, an image is loaded and
no run is in progress, cancel the pending scheduled job (if any) and
schedule `start_processing` 300 ms later; otherwise do nothing (beyond
label updates, which carry no scheduling state). -/
def on_parameter_change (live_preview current_image processing : Bool)
    (s : DebounceState) : DebounceState :=
  if live_preview && current_image && !processing then
    { pending := some s.nextId
      nextId := s.nextId + 1
      started := s.started
      cancelled :=
        match s.pending with
        | some j => j :: s.cancelled
        | none => s.cancelled }
  else s

/-- The 300 ms timer firing: the pending job (if any) runs
`start_processing` and is no longer pending. -/
def timer_fire (s : DebounceState) : DebounceState :=
  match s.pending with
  | some _ => { s with pending := none, started := s.started + 1 }
  | none => s

/-- C6: two parameter-change events inside the debounce window (live
preview on, image loaded, no run in progress, no timer expiry in between)
trigger exactly one pipeline run: the second event cancels the job
scheduled by the first and reschedules, so after the quiet period exactly
one `start_processing` fires and the first job never does. -/
theorem debounce_supersedes (s0 : DebounceState) (h : s0.pending = none) :
    (timer_fire (on_parameter_change true true false
        (on_parameter_change true true false s0))).started = s0.started + 1 ∧
    (on_parameter_change true true false s0).pending = some s0.nextId ∧
    (on_parameter_change true true false
        (on_parameter_change true true false s0)).cancelled =
      s0.nextId :: s0.cancelled ∧
    (on_parameter_change true true false
        (on_parameter_change true true false s0)).pending = some (s0.nextId + 1) ∧
    (timer_fire (timer_fire (on_parameter_change true true false
        (on_parameter_change true true false s0)))).started = s0.started + 1 := by
  refine ⟨?_, ?_, ?_, ?_, ?_⟩ <;> simp [on_parameter_change, timer_fire, h]

/-- Witness for C6 from the initial debounce state. -/
theorem debounce_supersedes_witness :
    (timer_fire (on_parameter_change true true false
        (on_parameter_change true true false ⟨none, 0, 0, []⟩))).started = 0 + 1 ∧
    (on_parameter_change true true false
        (⟨none, 0, 0, []⟩ : DebounceState)).pending = some 0 ∧
    (on_parameter_change true true false
        (on_parameter_change true true false ⟨none, 0, 0, []⟩)).cancelled = 0 :: [] ∧
    (on_parameter_change true true false
        (on_parameter_change true true false ⟨none, 0, 0, []⟩)).pending = some (0 + 1) ∧
    (timer_fire (timer_fire (on_parameter_change true true false
        (on_parameter_change true true false ⟨none, 0, 0, []⟩)))).started = 0 + 1 :=
  debounce_supersedes ⟨none, 0, 0, []⟩ rfl

/-! ## Parameter Set defaults, presets and reset -/

/-- The eight GUI parameters (floats as exact rationals, integer sliders
as `ℤ`, the turn policy as its string value). -/
structure ParamSet where
  blur : ℚ
  threshold : ℚ
  scale : ℤ
  filter : ℤ
  turnpolicy : String
  turdsize : ℤ
  alphamax : ℚ
  opttolerance : ℚ
deriving DecidableEq, Repr

/-- `self.default_values` from `__init__`. -/
def default_values : ParamSet :=
  { blur := 1, threshold := 0.45, scale := 2, filter := 2,
    turnpolicy := "minority", turdsize := 2, alphamax := 1, opttolerance := 0.2 }

/-- `reset_parameters`: every `<param>_var` is set from `default_values`. -/
def reset_parameters (_p : ParamSet) : ParamSet :=
  { blur := default_values.blur, threshold := default_values.threshold,
    scale := default_values.scale, filter := default_values.filter,
    turnpolicy := default_values.turnpolicy, turdsize := default_values.turdsize,
    alphamax := default_values.alphamax, opttolerance := default_values.opttolerance }

/-- `load_preset`: the three hard-coded presets overwrite all eight
parameters; an unknown preset name changes nothing. -/
def load_preset (preset_name : String) (p : ParamSet) : ParamSet :=
  if preset_name = "technical" then
    { blur := 1, threshold := 0.45, scale := 2, filter := 2,
      turnpolicy := "minority", turdsize := 2, alphamax := 1, opttolerance := 0.2 }
  else if preset_name = "smooth" then
    { blur := 2, threshold := 0.4, scale := 3, filter := 4,
      turnpolicy := "minority", turdsize := 5, alphamax := 0.8, opttolerance := 0.5 }
  else if preset_name = "detail" then
    { blur := 0.5, threshold := 0.5, scale := 2, filter := 1,
      turnpolicy := "black", turdsize := 1, alphamax := 1.2, opttolerance := 0.1 }
  else p

/-- C8: after any preset load (and from any prior parameter state),
`reset_parameters` restores every field to exactly its documented default:
blur 1.0, threshold 0.45, scale 2, filter 2, turnpolicy "minority",
turdsize 2, alphamax 1.0, opttolerance 0.2. -/
theorem reset_restores_defaults (preset_name : String) (p : ParamSet) :
    reset_parameters (load_preset preset_name p) = default_values ∧
    default_values =
      { blur := 1, threshold := 0.45, scale := 2, filter := 2,
        turnpolicy := "minority", turdsize := 2, alphamax := 1,
        opttolerance := 0.2 } :=
  ⟨rfl, rfl⟩
